import Mathlib

/-!
Verification development for the AiDA asynchronous multi-provider
request-orchestration engine (C++ sources: the AI client implementation file).

The embedding models, directly from the source:
* a small JSON value type standing for `nlohmann::json` values, together with
  the member functions the code uses (`contains`, `empty`, `operator[]`,
  `get<std::string>`, `dump`);
* the transport adapter `AIClientBase::_http_post_request` (the network
  interaction itself is abstracted into a `TransportOutcome` argument: the
  status/body pair the HTTP library hands back, or a transport error);
* the four provider adapters (`is_available`, `_blocking_generate` with their
  response-parser lambdas);
* the factory `get_ai_client`;
* the request-lifecycle machinery (`ai_request_t`, the worker lambda inside
  `AIClientBase::_generate`, and `ai_request_t::execute`), modelled as event
  traces so that callback-invocation counts can be stated and proved;
* the public operations (`analyze_function` &c.) on a prompt context.

Machine integers do not overflow anywhere in the modelled code, so `Nat` is
used throughout. Fallible C++ code (thrown exceptions) is modelled with
`Except`.
-/

set_option autoImplicit false

namespace AiDA

/-! ## JSON model (for `nlohmann::json`) -/

/-- JSON values as used by the code. Numbers are modelled as `Int` (the code
never inspects numeric payloads, so fractional values are not needed).
`obj` keeps fields in list order; `nlohmann::json` keeps object keys sorted,
so concrete objects in the theorems below are written with sorted keys. -/
inductive Json where
  | null
  | bool (b : Bool)
  | num (n : Int)
  | str (s : String)
  | arr (elems : List Json)
  | obj (fields : List (String × Json))

/-- An exception thrown by the JSON layer (all derive from `std::exception`);
only the `what()` text is modelled, abstractly. -/
structure JErr where
  what : String

/-- Key lookup in an object; `none` on non-objects or missing keys. -/
def Json.find : Json → String → Option Json
  | .obj fields, k => fields.lookup k
  | _, _ => none

/-- Models `nlohmann::json::contains(key)`: true iff the value is an object
holding the key. -/
def Json.contains (j : Json) (k : String) : Bool :=
  (j.find k).isSome

/-- `j.find k` with `null` as default; used only under a `contains` guard,
mirroring the short-circuit `contains(k) && ... j[k] ...` in the source. -/
def Json.findD (j : Json) (k : String) : Json :=
  (j.find k).getD .null

/-- Models `nlohmann::json::empty()`: true for `null` and for empty
arrays/objects, false for every other value. -/
def Json.isEmpty : Json → Bool
  | .null => true
  | .arr elems => elems.isEmpty
  | .obj fields => fields.isEmpty
  | _ => false

/-- Models `operator[](key) const`. In nlohmann a missing key (or a non-object
receiver) under const access is an assertion failure (undefined behaviour in
release builds); the model raises a fault so that the surrounding catch
boundaries can be analysed — in neither semantics does the access yield a
normal value. -/
def Json.keyAccess (j : Json) (k : String) : Except JErr Json :=
  match j.find k with
  | some v => .ok v
  | none => .error ⟨"[json.assert] missing key " ++ k⟩

/-- Models `operator[](idx) const` on arrays, with the same fault convention
as `Json.keyAccess` for out-of-range or non-array access. -/
def Json.idxAccess (j : Json) (i : Nat) : Except JErr Json :=
  match j with
  | .arr elems =>
    match elems.get? i with
    | some v => .ok v
    | none => .error ⟨"[json.assert] array index out of range"⟩
  | _ => .error ⟨"[json.assert] subscript on non-array"⟩

/-- Models `get<std::string>()`: a `type_error` exception on non-strings
(this one is a genuine thrown `std::exception` in nlohmann). -/
def Json.getStr : Json → Except JErr String
  | .str s => .ok s
  | _ => .error ⟨"[json.exception.type_error.302] type must be string"⟩

/-- Escaping for string serialization (the strings in this development need
only quote and backslash escapes). -/
def jsonEscape (s : String) : String :=
  String.join (s.toList.map fun c =>
    if c = '\"' then "\\\"" else if c = '\\' then "\\\\" else String.singleton c)

mutual

/-- Models compact `nlohmann::json::dump()` (separators "," and ":", no
spaces), on objects whose keys are already in sorted order. -/
def Json.dump : Json → String
  | .null => "null"
  | .bool b => if b then "true" else "false"
  | .num n => toString n
  | .str s => "\"" ++ jsonEscape s ++ "\""
  | .arr elems => "[" ++ Json.dumpList elems ++ "]"
  | .obj fields => "\x7b" ++ Json.dumpFields fields ++ "\x7d"

def Json.dumpList : List Json → String
  | [] => ""
  | [j] => Json.dump j
  | j :: j2 :: rest => Json.dump j ++ "," ++ Json.dumpList (j2 :: rest)

def Json.dumpFields : List (String × Json) → String
  | [] => ""
  | [(k, v)] => "\"" ++ jsonEscape k ++ "\":" ++ Json.dump v
  | (k, v) :: f2 :: rest =>
    "\"" ++ jsonEscape k ++ "\":" ++ Json.dump v ++ "," ++ Json.dumpFields (f2 :: rest)

end

/-- True iff `pre` is a prefix of `s` (character-wise); used to state
"result string beginning with ..." properties. -/
def beginsWith (s pre : String) : Bool :=
  pre.data.isPrefixOf s.data

/-! ## Settings -/

/-- The fields of `settings_t` consulted by the modelled code paths
(provider selection and per-provider credentials/address). -/
structure settings_t where
  api_provider : String
  gemini_api_key : String
  openai_api_key : String
  anthropic_api_key : String
  copilot_proxy_address : String

/-! ## Transport adapter: `AIClientBase::_http_post_request` -/

/-- The error classification `httplib` reports when `Post` yields no
response object. -/
inductive HttpError where
  | canceled
  | other (name : String)

/-- A response body over the wire, abstracted by its JSON-parse outcome:
`js j` is a body that `json::parse` parses to `j`; `raw s` is a body whose
text `s` does not parse (in particular `raw ""` is the empty body). -/
inductive BodyRes where
  | js (j : Json)
  | raw (s : String)

/-- Outcome of the blocking `httplib::Client::Post` call. -/
inductive TransportOutcome where
  | response (status : Nat) (body : BodyRes)
  | transport_err (e : HttpError)

/-- The error detail the transport adapter logs for a non-200 status:
the parsed JSON body (logged via `dump(2)`) if the body parses, else the raw
body text, else the placeholder "No details in response body.". -/
inductive ErrDetail where
  | noBody
  | jsonDetail (j : Json)
  | rawBody (s : String)

/-- Log/diagnostic events emitted by the transport adapter. -/
inductive TransportLog where
  | apiError (host : String) (status : Nat) (detail : ErrDetail)
  | apiCallFailed (host : String) (what : String)

/-- The detail computation of the non-200 branch of `_http_post_request`. -/
def errorDetail : BodyRes → ErrDetail
  | .js j => .jsonDetail j
  | .raw s => if s = "" then .noBody else .rawBody s

/-- The abstracted `what()` text of a `json::parse` parse error. -/
def parse_error_what (s : String) : String :=
  "[json.exception.parse_error] " ++ s

/-- Models `AIClientBase::_http_post_request host path headers body parser`.
The network call itself is abstracted into `outcome`; `cancelled` is the
value of the `_cancelled` flag at the check performed right after `Post`
returns (the flag is never cleared during a request, only by the next
`_generate` call). The result is the returned string plus the log events.
The whole body sits in a `try/catch (std::exception)` in the source, so a
fault from `json::parse` or from `response_extract` is converted here — inside
the transport adapter — to "Error: API call failed. Details: <what>". -/
def _http_post_request (cancelled : Bool) (outcome : TransportOutcome) (host : String)
    (response_extract : Json → Except JErr String) : String × List TransportLog :=
  if cancelled then
    ("Error: Operation cancelled.", [])
  else
    match outcome with
    | .transport_err .canceled => ("Error: Operation cancelled.", [])
    | .transport_err (.other name) => ("Error: HTTP request failed: " ++ name, [])
    | .response status body =>
      if status ≠ 200 then
        ("Error: API returned status " ++ toString status,
         [.apiError host status (errorDetail body)])
      else
        match body with
        | .js jres =>
          match response_extract jres with
          | .ok s => (s, [])
          | .error e =>
            ("Error: API call failed. Details: " ++ e.what, [.apiCallFailed host e.what])
        | .raw s =>
          ("Error: API call failed. Details: " ++ parse_error_what s,
           [.apiCallFailed host (parse_error_what s)])

/-! ## Provider adapters -/

def GeminiClient.is_available (s : settings_t) : Bool :=
  !(s.gemini_api_key == "")

def OpenAIClient.is_available (s : settings_t) : Bool :=
  !(s.openai_api_key == "")

def AnthropicClient.is_available (s : settings_t) : Bool :=
  !(s.anthropic_api_key == "")

def CopilotClient.is_available (s : settings_t) : Bool :=
  !(s.copilot_proxy_address == "")

/-- The guard `jres.contains("candidates") && !jres["candidates"].empty()`
of the Gemini response parser. -/
def gemini_guard (jres : Json) : Bool :=
  jres.contains "candidates" && !(jres.findD "candidates").isEmpty

/-- The Gemini response-parser lambda: under the guard it extracts
`candidates[0].content.parts[0].text` (any failure on that path is a raised
JSON fault), otherwise it returns the invalid-response error string carrying
the dumped body. -/
def gemini_response_extract (jres : Json) : Except JErr String :=
  if gemini_guard jres then do
    let c0 ← (jres.findD "candidates").idxAccess 0
    let content ← c0.keyAccess "content"
    let parts ← content.keyAccess "parts"
    let p0 ← parts.idxAccess 0
    let text ← p0.keyAccess "text"
    text.getStr
  else
    .ok ("Error: Received empty or invalid response from API. " ++ jres.dump)

/-- The guard `jres.contains("choices") && !jres["choices"].empty()` shared
by the OpenAI and Copilot parsers. -/
def choices_guard (jres : Json) : Bool :=
  jres.contains "choices" && !(jres.findD "choices").isEmpty

/-- The OpenAI response-parser lambda: extracts
`choices[0].message.content`. -/
def openai_response_extract (jres : Json) : Except JErr String :=
  if choices_guard jres then do
    let c0 ← (jres.findD "choices").idxAccess 0
    let message ← c0.keyAccess "message"
    let content ← message.keyAccess "content"
    content.getStr
  else
    .ok ("Error: Received empty or invalid response from API. " ++ jres.dump)

/-- The guard `jres.contains("content") && !jres["content"].empty()` of the
Anthropic parser. -/
def anthropic_guard (jres : Json) : Bool :=
  jres.contains "content" && !(jres.findD "content").isEmpty

/-- The Anthropic response-parser lambda: extracts `content[0].text`. -/
def anthropic_response_extract (jres : Json) : Except JErr String :=
  if anthropic_guard jres then do
    let c0 ← (jres.findD "content").idxAccess 0
    let text ← c0.keyAccess "text"
    text.getStr
  else
    .ok ("Error: Received empty or invalid response from API. " ++ jres.dump)

/-- The Copilot response-parser lambda (same shape as OpenAI). -/
def copilot_response_extract (jres : Json) : Except JErr String :=
  if choices_guard jres then do
    let c0 ← (jres.findD "choices").idxAccess 0
    let message ← c0.keyAccess "message"
    let content ← message.keyAccess "content"
    content.getStr
  else
    .ok ("Error: Received empty or invalid response from API. " ++ jres.dump)

/-- `GeminiClient::_blocking_generate`: the not-configured early return,
else the transport call against the fixed Gemini host with the Gemini
parser. The request payload and URL path only feed the network and are
absorbed into `outcome`. -/
def GeminiClient._blocking_generate (s : settings_t) (cancelled : Bool)
    (outcome : TransportOutcome) : String :=
  if GeminiClient.is_available s then
    (_http_post_request cancelled outcome "https://generativelanguage.googleapis.com"
      gemini_response_extract).1
  else
    "Error: Gemini client is not initialized. Check API key."

/-- `OpenAIClient::_blocking_generate`. -/
def OpenAIClient._blocking_generate (s : settings_t) (cancelled : Bool)
    (outcome : TransportOutcome) : String :=
  if OpenAIClient.is_available s then
    (_http_post_request cancelled outcome "https://api.openai.com" openai_response_extract).1
  else
    "Error: OpenAI client is not initialized. Check API key."

/-- `AnthropicClient::_blocking_generate`. -/
def AnthropicClient._blocking_generate (s : settings_t) (cancelled : Bool)
    (outcome : TransportOutcome) : String :=
  if AnthropicClient.is_available s then
    (_http_post_request cancelled outcome "https://api.anthropic.com"
      anthropic_response_extract).1
  else
    "Error: Anthropic client is not initialized. Check API key."

/-- `CopilotClient::_blocking_generate` (the host is the configured proxy
address). -/
def CopilotClient._blocking_generate (s : settings_t) (cancelled : Bool)
    (outcome : TransportOutcome) : String :=
  if CopilotClient.is_available s then
    (_http_post_request cancelled outcome s.copilot_proxy_address copilot_response_extract).1
  else
    "Error: Copilot client is not configured. Please set the proxy address in settings."

/-! ## Client factory: `get_ai_client` -/

/-- The four concrete adapters the factory can construct. -/
inductive ProviderKind where
  | gemini
  | openai
  | anthropic
  | copilot
deriving DecidableEq

/-- Log events emitted by the factory. -/
inductive FactoryLog where
  | msgInitProvider (p : String)
  | warnUnknownProvider (p : String)
deriving DecidableEq

/-- Models `qtolower` on one ASCII character (as applied by `qstrlwr`). -/
def qtolower_char (c : Char) : Char :=
  if 'A' ≤ c ∧ c ≤ 'Z' then Char.ofNat (c.toNat + 32) else c

/-- Models `qstrlwr`: ASCII-lowercase every character in place. -/
def qstrlwr (s : String) : String :=
  s.map qtolower_char

/-- Models `get_ai_client(settings)`: lowercases the configured provider
name, constructs the matching adapter, or yields none plus a warning for an
unrecognized name. The returned pair is (constructed client or none, log
events in emission order). -/
def get_ai_client (s : settings_t) : Option ProviderKind × List FactoryLog :=
  let provider := qstrlwr s.api_provider
  let logs := [FactoryLog.msgInitProvider provider]
  if provider = "gemini" then (some ProviderKind.gemini, logs)
  else if provider = "openai" then (some ProviderKind.openai, logs)
  else if provider = "anthropic" then (some ProviderKind.anthropic, logs)
  else if provider = "copilot" then (some ProviderKind.copilot, logs)
  else (none, logs ++ [FactoryLog.warnUnknownProvider provider])

/-! ## Request orchestrator: `_generate`, the worker lambda, and
`ai_request_t::execute` -/

/-- A fault escaping `_blocking_generate` into the worker lambda of
`AIClientBase::_generate`: a `std::exception` (with its `what()` text) or
anything else. -/
inductive WFault where
  | std (what : String)
  | unknown

/-- Events of one request lifecycle, in the order they occur. `workerWarn`
happens on the worker thread; every other event is emitted by the
finalization task `ai_request_t::execute` running on the host thread. -/
inductive REvent where
  | workerWarn (s : String)
  | unregTimer
  | msgCancelled
  | cbInvoke (s : String)
  | warnCbFault (s : String)
  | discard

/-- The `result` string the worker lambda computes: the value returned by
`_blocking_generate`, or the normalized string from the worker-level
catch-all. -/
def worker_result : Except WFault String → String
  | .ok s => s
  | .error (.std w) => "Error: Exception in worker thread: " ++ w
  | .error .unknown => "Error: Unknown exception in worker thread."

/-- Events the worker lambda itself emits: only the `warning` logs of its
two catch blocks (never a callback invocation). -/
def worker_func_events : Except WFault String → List REvent
  | .ok _ => []
  | .error f => [.workerWarn (worker_result (.error f))]

/-- The state of an `ai_request_t` object. `result` and `was_cancelled` are
its data fields; `has_callback` models a non-null `callback` member and
`has_timer` a non-null `timer` member. -/
structure ai_request_t where
  result : String
  was_cancelled : Bool
  has_callback : Bool
  has_timer : Bool

/-- The `ai_request_t` state left behind by the worker lambda: it stores
`_cancelled.load()` into `was_cancelled` and moves the computed result in
only when not cancelled (the field keeps its initial empty value
otherwise). -/
def worker_func_request (blocking : Except WFault String) (cancelled : Bool)
    (has_cb has_timer : Bool) : ai_request_t :=
  { result := if cancelled then "" else worker_result blocking
    was_cancelled := cancelled
    has_callback := has_cb
    has_timer := has_timer }

/-- Models `ai_request_t::execute`, the finalization task run on the host
thread. `client_alive` is whether `client_validity_token.lock()` succeeds;
`cb_fault = some w` models the callback throwing an exception whose report
text is `w` (caught in place, never propagated). When the owning client is
gone the task only deletes itself. -/
def ai_request_execute (client_alive : Bool) (req : ai_request_t)
    (cb_fault : Option String) : List REvent :=
  if client_alive then
    (if req.has_timer then [REvent.unregTimer] else [])
      ++ (if req.was_cancelled then [REvent.msgCancelled]
          else if req.has_callback then
            REvent.cbInvoke req.result ::
              (match cb_fault with
               | some w => [REvent.warnCbFault w]
               | none => [])
          else [])
      ++ [REvent.discard]
  else
    [REvent.discard]

/-- The complete event trace of one `generate` request: the worker-thread
events followed by the finalization task. `cancelled` is the value of the
`_cancelled` flag at the end of the worker (the flag is monotone during a
request: set by `cancel_current_request` or teardown, reset only by the next
`_generate` call). -/
def generate_request_trace (client_alive cancelled : Bool)
    (blocking : Except WFault String) (has_cb has_timer : Bool)
    (cb_fault : Option String) : List REvent :=
  worker_func_events blocking
    ++ ai_request_execute client_alive
        (worker_func_request blocking cancelled has_cb has_timer) cb_fault

/-- Recognizer for callback-invocation events. -/
def isCbInvoke : REvent → Bool
  | .cbInvoke _ => true
  | _ => false

/-- Number of callback invocations in a trace. -/
def countCb (tr : List REvent) : Nat :=
  (tr.filter isCbInvoke).length

/-! ## Public operations on a prompt context -/

/-- Modelled from the spec: the context produced by the external collaborator
`buildPromptContext` (`ida_utils::get_context_for_prompt`, whose definition
is outside the analysed sources) is treated as an opaque value with an
`ok`/`message` status pair, which is all the orchestration code reads of it
on the failure path. -/
structure prompt_context_t where
  ok : Bool
  message : String

/-- `BADADDR` for a 64-bit `ea_t`. -/
def BADADDR : Nat := 2 ^ 64 - 1

/-- Observable actions of one public operation call on the calling thread:
a string-callback invocation, an address-callback invocation, or entering
`_generate` (which registers the poll timer, spawns the worker thread and
hence the network request). -/
inductive OpEvent where
  | cbResult (s : String)
  | cbAddr (a : Nat)
  | startGenerate

/-- `AIClientBase::analyze_function`: on a failed context, invoke the
callback synchronously with the context message and return; otherwise build
the prompt and call `_generate`. -/
def analyze_function (ctx : prompt_context_t) : List OpEvent :=
  if !ctx.ok then [OpEvent.cbResult ctx.message] else [OpEvent.startGenerate]

/-- `AIClientBase::suggest_name` (same failure-path shape). -/
def suggest_name (ctx : prompt_context_t) : List OpEvent :=
  if !ctx.ok then [OpEvent.cbResult ctx.message] else [OpEvent.startGenerate]

/-- `AIClientBase::generate_struct` (same failure-path shape). -/
def generate_struct (ctx : prompt_context_t) : List OpEvent :=
  if !ctx.ok then [OpEvent.cbResult ctx.message] else [OpEvent.startGenerate]

/-- `AIClientBase::generate_hook` (same failure-path shape; the
function-name cleanup happens only on the success path). -/
def generate_hook (ctx : prompt_context_t) : List OpEvent :=
  if !ctx.ok then [OpEvent.cbResult ctx.message] else [OpEvent.startGenerate]

/-- `AIClientBase::custom_query` (the question is consulted only on the
success path). -/
def custom_query (ctx : prompt_context_t) (_question : String) : List OpEvent :=
  if !ctx.ok then [OpEvent.cbResult ctx.message] else [OpEvent.startGenerate]

/-- `AIClientBase::locate_global_pointer`: on a failed context, invoke the
address callback with `BADADDR` and return. -/
def locate_global_pointer (ctx : prompt_context_t) (_target_name : String) : List OpEvent :=
  if !ctx.ok then [OpEvent.cbAddr BADADDR] else [OpEvent.startGenerate]

/-! ## Concrete values used in the theorems -/

/-- A Gemini 200-response body with a non-empty candidates array and
candidates[0].content.parts[0].text = "hello". -/
def gemini_hello_response : Json :=
  .obj [("candidates",
    .arr [.obj [("content", .obj [("parts", .arr [.obj [("text", .str "hello")]])])]])]

/-- A Gemini 200-response body whose candidates array is non-empty but whose
first candidate lacks the required nested field "content". -/
def gemini_missing_content_response : Json :=
  .obj [("candidates", .arr [.obj []])]

/-- A response parser that raises a fault, standing for a parser lambda that
throws a JSON (std-derived) exception. -/
def boom_response_extract : Json → Except JErr String :=
  fun _ => .error ⟨"boom"⟩

/-! ## Shared helper lemmas -/

theorem countCb_append (a b : List REvent) : countCb (a ++ b) = countCb a + countCb b := by
  simp [countCb, List.filter_append]

theorem filter_worker_func_events (blocking : Except WFault String) :
    (worker_func_events blocking).filter isCbInvoke = [] := by
  rcases blocking with s | f
  · rfl
  · rfl

theorem countCb_worker_func_events (blocking : Except WFault String) :
    countCb (worker_func_events blocking) = 0 := by
  simp [countCb, filter_worker_func_events]

theorem countCb_ai_request_execute_le (client_alive : Bool) (req : ai_request_t)
    (cb_fault : Option String) :
    countCb (ai_request_execute client_alive req cb_fault) ≤ 1 := by
  obtain ⟨res, wc, hc, ht⟩ := req
  cases client_alive <;> cases wc <;> cases hc <;> cases ht <;>
    rcases cb_fault with _ | w <;>
      simp [ai_request_execute, countCb, isCbInvoke, List.filter]

/-! ## Claim theorems -/

/-- C1: for every generate call, the result callback is invoked at most once
(at most one `cbInvoke` event in the whole request trace), callbacks are
emitted only by the finalization task (the worker-thread segment of the
trace contains none), and if the validity token no longer resolves when the
finalization task runs, the task only discards itself — it emits no
callback, no timer tear-down and no message. -/
theorem spec_c1 (client_alive cancelled : Bool) (blocking : Except WFault String)
    (has_cb has_timer : Bool) (cb_fault : Option String) :
    countCb (generate_request_trace client_alive cancelled blocking has_cb has_timer cb_fault) ≤ 1
    ∧ countCb (worker_func_events blocking) = 0
    ∧ generate_request_trace false cancelled blocking has_cb has_timer cb_fault
        = worker_func_events blocking ++ [REvent.discard] := by
  refine ⟨?_, countCb_worker_func_events blocking, rfl⟩
  rw [generate_request_trace, countCb_append, countCb_worker_func_events]
  simpa using countCb_ai_request_execute_le client_alive
    (worker_func_request blocking cancelled has_cb has_timer) cb_fault

/-- C2 counterexample: a cancelled request whose owning client is still
alive (validity token resolves, first argument `true`) and whose callback is
present is suppressed entirely — the finalization task logs a message and
discards the request without invoking the callback. So owning-client
destruction is not the only suppressing condition, and the Cancelled outcome
is not delivered through the callback path. -/
theorem spec_c2_counterexample :
    generate_request_trace true true (Except.ok "generated text") true true none
        = [REvent.unregTimer, REvent.msgCancelled, REvent.discard]
    ∧ countCb (generate_request_trace true true (Except.ok "generated text") true true none)
        = 0 :=
  ⟨rfl, rfl⟩

/-- C2 (amended): owning-client destruction observed at finalization time
and a cancelled outcome observed at finalization time are the only
conditions suppressing the callback; every non-cancelled outcome of a
request — including the five normalized error strings other than Cancelled —
is delivered to a present callback exactly once, carrying the worker result
string. -/
theorem spec_c2_amended (blocking : Except WFault String) (cancelled has_timer : Bool)
    (cb_fault : Option String) :
    (generate_request_trace true false blocking true has_timer cb_fault).filter isCbInvoke
        = [REvent.cbInvoke (worker_result blocking)]
    ∧ countCb (generate_request_trace true true blocking true has_timer cb_fault) = 0
    ∧ countCb (generate_request_trace false cancelled blocking true has_timer cb_fault) = 0 := by
  refine ⟨?_, ?_, ?_⟩ <;>
    cases has_timer <;> rcases cb_fault with _ | w <;>
      simp [generate_request_trace, ai_request_execute, worker_func_request,
        countCb, List.filter_append, filter_worker_func_events, isCbInvoke, List.filter]

/-- C3 counterexample: a fault raised by the supplied response parser on a
status-200 response is caught inside the transport adapter itself, which
returns normally with the transport-layer classification
"Error: API call failed. Details: <what>" — it does not propagate out of
`post`, and the result differs from the worker-fault classification. -/
theorem spec_c3_counterexample :
    (_http_post_request false (.response 200 (.js .null)) "h" boom_response_extract).1
        = "Error: API call failed. Details: boom"
    ∧ "Error: API call failed. Details: boom" ≠ "Error: Exception in worker thread: boom" :=
  ⟨rfl, by decide⟩

/-- C3 (amended): faults raised by the supplied response parser (or by JSON
parsing of a status-200 body) are not silently swallowed, but they are caught
by the transport adapter itself — inside `_http_post_request` — and
converted to "Error: API call failed. Details: <what>" together with a
warning log; they never reach the worker-level catch-all. -/
theorem spec_c3_amended (jres : Json) (e : JErr) (host : String)
    (rp : Json → Except JErr String) (h : rp jres = .error e) :
    _http_post_request false (.response 200 (.js jres)) host rp
      = ("Error: API call failed. Details: " ++ e.what,
         [TransportLog.apiCallFailed host e.what]) := by
  simp [_http_post_request, h]

/-- C3 witness: the amended theorem at the concrete fault-raising parser. -/
theorem spec_c3_witness :
    _http_post_request false (.response 200 (.js .null)) "h" boom_response_extract
      = ("Error: API call failed. Details: boom",
         [TransportLog.apiCallFailed "h" "boom"]) :=
  spec_c3_amended .null ⟨"boom"⟩ "h" boom_response_extract rfl

/-- C4: if the cancellation flag is set before the transport call completes
(so it is set at the post-call check, and — the flag being monotone within a
request — at the worker-end load), the transport adapter returns the literal
"Error: Operation cancelled." (likewise when the HTTP library reports the
Canceled error raised by the progress probe), the request state is marked
cancelled, and the trace of such a request contains no callback
invocation. -/
theorem spec_c4 (outcome : TransportOutcome) (host : String)
    (rp : Json → Except JErr String) (blocking : Except WFault String)
    (has_timer : Bool) (cb_fault : Option String) :
    (_http_post_request true outcome host rp).1 = "Error: Operation cancelled."
    ∧ (_http_post_request false (.transport_err .canceled) host rp).1
        = "Error: Operation cancelled."
    ∧ (worker_func_request blocking true true has_timer).was_cancelled = true
    ∧ countCb (generate_request_trace true true blocking true has_timer cb_fault) = 0 := by
  refine ⟨rfl, rfl, rfl, ?_⟩
  cases has_timer <;> rcases cb_fault with _ | w <;>
    simp [generate_request_trace, ai_request_execute, worker_func_request,
      countCb, List.filter_append, filter_worker_func_events, isCbInvoke, List.filter]

/-- C5: for the Gemini adapter with a non-empty API key, an HTTP 200
response whose JSON body holds a non-empty candidates array with
candidates[0].content.parts[0].text = "hello" makes `_blocking_generate`
return exactly "hello". -/
theorem spec_c5 (s : settings_t) (h : s.gemini_api_key ≠ "") :
    GeminiClient._blocking_generate s false (.response 200 (.js gemini_hello_response))
      = "hello" := by
  have hav : GeminiClient.is_available s = true := by
    simp [GeminiClient.is_available, h]
  simp only [GeminiClient._blocking_generate, hav, if_true]
  rfl

/-- C5 witness: the round trip at a concrete settings value. -/
theorem spec_c5_witness :
    GeminiClient._blocking_generate ⟨"Gemini", "k", "", "", ""⟩ false
        (.response 200 (.js gemini_hello_response)) = "hello" :=
  spec_c5 ⟨"Gemini", "k", "", "", ""⟩ (by decide)

/-- C6 counterexample: a status-200 Gemini body whose candidates array is
non-empty but whose first candidate lacks the nested required field
"content" does not yield a result beginning with
"Error: Received empty or invalid response from API." — the unchecked
access faults (an assertion failure / undefined behaviour in nlohmann,
modelled as a raised fault) and the transport-layer catch turns it into
"Error: API call failed. Details: ...". -/
theorem spec_c6_counterexample :
    beginsWith
      (GeminiClient._blocking_generate ⟨"Gemini", "k", "", "", ""⟩ false
        (.response 200 (.js gemini_missing_content_response)))
      "Error: Received empty or invalid response from API." = false
    ∧ GeminiClient._blocking_generate ⟨"Gemini", "k", "", "", ""⟩ false
        (.response 200 (.js gemini_missing_content_response))
      = "Error: API call failed. Details: [json.assert] missing key content" := by
  exact ⟨by decide, rfl⟩

/-- C6 (amended): for every provider adapter, a status-200 JSON response
whose top-level required array (candidates / choices / content) is missing
or empty yields exactly
"Error: Received empty or invalid response from API. <raw-json>"; absence of
a nested field beneath a non-empty array is not detected by this check and
surfaces through the transport-adapter fault path instead. -/
theorem spec_c6_amended (s : settings_t) (jres : Json) :
    (s.gemini_api_key ≠ "" → gemini_guard jres = false →
      GeminiClient._blocking_generate s false (.response 200 (.js jres))
        = "Error: Received empty or invalid response from API. " ++ jres.dump)
    ∧ (s.openai_api_key ≠ "" → choices_guard jres = false →
      OpenAIClient._blocking_generate s false (.response 200 (.js jres))
        = "Error: Received empty or invalid response from API. " ++ jres.dump)
    ∧ (s.anthropic_api_key ≠ "" → anthropic_guard jres = false →
      AnthropicClient._blocking_generate s false (.response 200 (.js jres))
        = "Error: Received empty or invalid response from API. " ++ jres.dump)
    ∧ (s.copilot_proxy_address ≠ "" → choices_guard jres = false →
      CopilotClient._blocking_generate s false (.response 200 (.js jres))
        = "Error: Received empty or invalid response from API. " ++ jres.dump) := by
  refine ⟨fun h hg => ?_, fun h hg => ?_, fun h hg => ?_, fun h hg => ?_⟩
  · simp [GeminiClient._blocking_generate, GeminiClient.is_available, h,
      _http_post_request, gemini_response_extract, hg]
  · simp [OpenAIClient._blocking_generate, OpenAIClient.is_available, h,
      _http_post_request, openai_response_extract, hg]
  · simp [AnthropicClient._blocking_generate, AnthropicClient.is_available, h,
      _http_post_request, anthropic_response_extract, hg]
  · simp [CopilotClient._blocking_generate, CopilotClient.is_available, h,
      _http_post_request, copilot_response_extract, hg]

/-- C6 witness: the amended theorem at a concrete empty-object body, for all
four providers. -/
theorem spec_c6_witness :
    GeminiClient._blocking_generate ⟨"Gemini", "k", "k", "k", "addr"⟩ false
        (.response 200 (.js (.obj [])))
      = "Error: Received empty or invalid response from API. " ++ (Json.obj []).dump
    ∧ OpenAIClient._blocking_generate ⟨"Gemini", "k", "k", "k", "addr"⟩ false
        (.response 200 (.js (.obj [])))
      = "Error: Received empty or invalid response from API. " ++ (Json.obj []).dump
    ∧ AnthropicClient._blocking_generate ⟨"Gemini", "k", "k", "k", "addr"⟩ false
        (.response 200 (.js (.obj [])))
      = "Error: Received empty or invalid response from API. " ++ (Json.obj []).dump
    ∧ CopilotClient._blocking_generate ⟨"Gemini", "k", "k", "k", "addr"⟩ false
        (.response 200 (.js (.obj [])))
      = "Error: Received empty or invalid response from API. " ++ (Json.obj []).dump :=
  ⟨(spec_c6_amended ⟨"Gemini", "k", "k", "k", "addr"⟩ (.obj [])).1 (by decide) rfl,
   (spec_c6_amended ⟨"Gemini", "k", "k", "k", "addr"⟩ (.obj [])).2.1 (by decide) rfl,
   (spec_c6_amended ⟨"Gemini", "k", "k", "k", "addr"⟩ (.obj [])).2.2.1 (by decide) rfl,
   (spec_c6_amended ⟨"Gemini", "k", "k", "k", "addr"⟩ (.obj [])).2.2.2 (by decide) rfl⟩

/-- C7: each adapter is available exactly when its required credential or
address field is non-empty; availability is a pure function of the settings
snapshot, with no network input. -/
theorem spec_c7 (s : settings_t) :
    (GeminiClient.is_available s = false ↔ s.gemini_api_key = "")
    ∧ (OpenAIClient.is_available s = false ↔ s.openai_api_key = "")
    ∧ (AnthropicClient.is_available s = false ↔ s.anthropic_api_key = "")
    ∧ (CopilotClient.is_available s = false ↔ s.copilot_proxy_address = "") := by
  refine ⟨?_, ?_, ?_, ?_⟩ <;>
    simp [GeminiClient.is_available, OpenAIClient.is_available,
      AnthropicClient.is_available, CopilotClient.is_available]

/-- C8: the factory reads the provider name case-insensitively — it
constructs a given adapter exactly when the ASCII-lowercased configured name
equals the corresponding canonical name (hence for every capitalization of
it) — and yields none, together with an unknown-provider warning, exactly
when the lowercased name is none of the four. -/
theorem spec_c8 (s : settings_t) :
    ((get_ai_client s).1 = some ProviderKind.gemini ↔ qstrlwr s.api_provider = "gemini")
    ∧ ((get_ai_client s).1 = some ProviderKind.openai ↔ qstrlwr s.api_provider = "openai")
    ∧ ((get_ai_client s).1 = some ProviderKind.anthropic ↔ qstrlwr s.api_provider = "anthropic")
    ∧ ((get_ai_client s).1 = some ProviderKind.copilot ↔ qstrlwr s.api_provider = "copilot")
    ∧ ((get_ai_client s).1 = none ↔
        ¬ (qstrlwr s.api_provider = "gemini" ∨ qstrlwr s.api_provider = "openai"
          ∨ qstrlwr s.api_provider = "anthropic" ∨ qstrlwr s.api_provider = "copilot"))
    ∧ ((get_ai_client s).1 = none ↔
        FactoryLog.warnUnknownProvider (qstrlwr s.api_provider) ∈ (get_ai_client s).2) := by
  simp only [get_ai_client]
  split_ifs <;> simp_all

/-- C9: a completed response with any status other than 200, without
cancellation, makes the transport adapter return exactly
"Error: API returned status <code>", after logging the host, the status and
the error detail (the parsed JSON body if the body parses, else the raw
body, else a placeholder). -/
theorem spec_c9 (status : Nat) (host : String) (body : BodyRes)
    (rp : Json → Except JErr String) (h : status ≠ 200) :
    _http_post_request false (.response status body) host rp
      = ("Error: API returned status " ++ toString status,
         [TransportLog.apiError host status (errorDetail body)]) := by
  simp [_http_post_request, h]

/-- C9 witness: status 403 with JSON body holding field "error" = "bad key"
yields "Error: API returned status 403" and logs the JSON detail. -/
theorem spec_c9_witness :
    _http_post_request false
        (.response 403 (.js (.obj [("error", Json.str "bad key")])))
        "https://api.openai.com" openai_response_extract
      = ("Error: API returned status 403",
         [TransportLog.apiError "https://api.openai.com" 403
            (ErrDetail.jsonDetail (.obj [("error", Json.str "bad key")]))]) :=
  spec_c9 403 "https://api.openai.com" (.js (.obj [("error", Json.str "bad key")]))
    openai_response_extract (by decide)

/-- C10: for every public operation taking a string callback, a failed
prompt context (ok = false) makes the operation invoke the callback exactly
once, synchronously on the calling thread, with the context message, and
start no worker, timer or network request (no `startGenerate` event);
`locate_global_pointer` in the same situation invokes its address callback
once with BADADDR. -/
theorem spec_c10 (ctx : prompt_context_t) (question target_name : String)
    (h : ctx.ok = false) :
    analyze_function ctx = [OpEvent.cbResult ctx.message]
    ∧ suggest_name ctx = [OpEvent.cbResult ctx.message]
    ∧ generate_struct ctx = [OpEvent.cbResult ctx.message]
    ∧ generate_hook ctx = [OpEvent.cbResult ctx.message]
    ∧ custom_query ctx question = [OpEvent.cbResult ctx.message]
    ∧ locate_global_pointer ctx target_name = [OpEvent.cbAddr BADADDR] := by
  simp [analyze_function, suggest_name, generate_struct, generate_hook,
    custom_query, locate_global_pointer, h]

/-- C10 witness: the failure path at a concrete failed context. -/
theorem spec_c10_witness :
    analyze_function ⟨false, "ctx failed"⟩ = [OpEvent.cbResult "ctx failed"]
    ∧ suggest_name ⟨false, "ctx failed"⟩ = [OpEvent.cbResult "ctx failed"]
    ∧ generate_struct ⟨false, "ctx failed"⟩ = [OpEvent.cbResult "ctx failed"]
    ∧ generate_hook ⟨false, "ctx failed"⟩ = [OpEvent.cbResult "ctx failed"]
    ∧ custom_query ⟨false, "ctx failed"⟩ "q" = [OpEvent.cbResult "ctx failed"]
    ∧ locate_global_pointer ⟨false, "ctx failed"⟩ "g_ptr" = [OpEvent.cbAddr BADADDR] :=
  spec_c10 ⟨false, "ctx failed"⟩ "q" "g_ptr" rfl

end AiDA
